import Mathlib

/-!
Shallow embedding of `iotserver.py` (mrkalePythonApp/iotserver), the central
IoT server hub and MQTT client, together with theorems settling the spec
claims about its message handlers, command actions, connection lifecycle and
shutdown sequence.

Conventions of the embedding:
- Python floats are modelled as rationals (`ℚ`); payload byte strings as
  their UTF-8 decoded `String`.
- Fallible Python code (statements that may raise) is embedded in `Except
  PyError`; a raised exception of any kind becomes `Except.error`.
- Log calls are modelled as emitted `LogEvent`s (level plus a message text;
  the interpolated arguments of the Python format strings are elided where a
  claim does not depend on them).
- Python class-attribute lookup on the enumeration-style classes (`IoT`,
  `Fan`) is modelled as a partial map from attribute name to value; a lookup
  of an attribute the class does not define is an `AttributeError`, exactly
  as in Python.
- `mqtt.topic_name(option [, group])` resolves configuration keys to wire
  topic strings; the configuration file is outside the source, so handlers
  are parameterised by the resolution functions (`MqttEnv`).
-/

namespace IotServer

/-- Logging levels used by the script (Python `logging`). -/
inductive LogLevel
  | debug
  | info
  | warning
  | error
  deriving DecidableEq, Repr

/-- A single emitted log record: level and message text. -/
structure LogEvent where
  level : LogLevel
  text : String
  deriving DecidableEq, Repr

/-- Python exceptions that the embedded code can raise. -/
inductive PyError
  | valueError
  | keyError
  | nameError (name : String)
  | attributeError (attr : String)
  deriving DecidableEq, Repr

/-- Enumeration `Action` of `iotserver.py` (lines 45-50). -/
inductive Action
  | PARAMS_RESET
  | GET_STATUS
  | SCRIPT_EXIT
  deriving DecidableEq, Repr

/-- `map_command` dictionary (lines 88-91): token to action.  Python dict
subscripting raises `KeyError` on a missing key, so lookup is partial. -/
def map_command : String → Option Action
  | "STATUS" => some Action.GET_STATUS
  | "EXIT" => some Action.SCRIPT_EXIT
  | _ => none

/-- Class `IoT` (lines 53-60) attribute table: it defines only `LWT`. -/
def IoT.attr : String → Option String
  | "LWT" => some "iot_lwt"
  | _ => none

/-- Class `Fan` (lines 63-71) attribute table: it defines only `LWT` and
`CMD_STATUS`. -/
def Fan.attr : String → Option String
  | "LWT" => some "fan_lwt"
  | "CMD_STATUS" => some "STATUS"
  | _ => none

/-- The mutable part of class `Script` (lines 73-82): the run flag and the
service-mode flag. -/
structure ScriptState where
  running : Bool
  service : Bool
  deriving DecidableEq, Repr

/-- Initial `Script` values: `running = True`, `service = False`. -/
def Script.initial : ScriptState :=
  { running := true, service := false }

/-- The `iot_data` container (lines 110-117): last-known system temperature
value and percentage, both starting as `None`. -/
structure IotData where
  temperatureValue : Option ℚ
  temperaturePercentage : Option ℚ
  deriving DecidableEq, Repr

/-- Initial `iot_data`: both readings `None`. -/
def iot_data_initial : IotData :=
  { temperatureValue := none, temperaturePercentage := none }

/-- An inbound MQTT message: topic, payload (absent or UTF-8 decoded text),
QoS and retain flag. -/
structure MQTTMessage where
  topic : String
  payload : Option String
  qos : Nat
  retain : Bool
  deriving DecidableEq, Repr

/-- Topic resolution environment: `mqtt.topic_name(option)` for the topics
group and `mqtt.topic_name(option, mqtt.GROUP_DEFAULT)` for the default
group.  The mapping comes from the configuration file at runtime. -/
structure MqttEnv where
  topicName : String → String
  topicNameDefault : String → String

/-- A concrete resolution environment where each configuration key resolves
to itself, used to evaluate handlers on concrete messages. -/
def idEnv : MqttEnv :=
  { topicName := fun s => s, topicNameDefault := fun s => s }

/-- Whitespace test for the leading/trailing strip performed by Python
`float()` on strings. -/
def isSpaceChar (c : Char) : Bool :=
  c = ' ' ∨ c = '\t' ∨ c = '\n' ∨ c = '\r'

/-- Strip leading and trailing whitespace from a character list. -/
def trimChars (cs : List Char) : List Char :=
  ((cs.dropWhile isSpaceChar).reverse.dropWhile isSpaceChar).reverse

/-- Accumulate a decimal digit string into a natural number; `none` if any
character is not a decimal digit. -/
def digitsToNat (acc : Nat) : List Char → Option Nat
  | [] => some acc
  | c :: cs =>
    if ('0' ≤ c ∧ c ≤ '9') then
      digitsToNat (acc * 10 + (c.toNat - 48)) cs
    else
      none

/-- Python `float(s)` on decimal literals, as a partial function into `ℚ`:
optional sign, integer digits, optional fraction after one dot; `none`
models a raised `ValueError`.  (Exponents and the `inf`/`nan` spellings are
not modelled; no claim depends on them.) -/
def pyFloat (s : String) : Option ℚ :=
  let cs := trimChars s.data
  let signBody : ℚ × List Char :=
    match cs with
    | '-' :: rest => (-1, rest)
    | '+' :: rest => (1, rest)
    | _ => (1, cs)
  let sgn := signBody.1
  let body := signBody.2
  let ip := body.takeWhile (fun c => c ≠ '.')
  let rest := body.dropWhile (fun c => c ≠ '.')
  match rest with
  | [] =>
    if ip.isEmpty then none
    else (digitsToNat 0 ip).map (fun n => sgn * (n : ℚ))
  | _ :: frac =>
    if ip.isEmpty ∧ frac.isEmpty then none
    else
      match digitsToNat 0 ip, digitsToNat 0 frac with
      | some n, some f =>
        some (sgn * ((n : ℚ) + (f : ℚ) / (10 : ℚ) ^ frac.length))
      | _, _ => none

/-- `mqtt_message_log` (lines 202-230): logs the message at debug level and
returns whether the payload is present. -/
def mqtt_message_log (m : MQTTMessage) : Bool × LogEvent :=
  let payloadText :=
    match m.payload with
    | none => "None"
    | some p => p
  (m.payload.isSome,
   { level := LogLevel.debug,
     text := "MQTT topic " ++ m.topic ++ ": " ++ payloadText })

/-- `action_iot` (lines 129-146): for `SCRIPT_EXIT`, in service mode only a
warning is logged; otherwise the run flag is cleared.  Other actions do
nothing in this revision. -/
def action_iot (st : ScriptState) (action : Action) :
    ScriptState × List LogEvent :=
  match action with
  | Action.SCRIPT_EXIT =>
    if st.service then
      (st, [{ level := LogLevel.warning,
              text := "Exiting the script in service mode is prohibited" }])
    else
      ({ st with running := false },
       [{ level := LogLevel.warning, text := "Stop script" }])
  | _ => (st, [])

/-- `cbMqtt_on_message` (lines 319-341): fallback handler, logs and returns;
it never touches any state. -/
def cbMqtt_on_message (m : MQTTMessage) : List LogEvent :=
  [(mqtt_message_log m).2]

/-- `cbMqtt_iot` (lines 344-374): command handler.  On the command topic the
decoded token is looked up with `map_command[command]`, which raises
`KeyError` for an unrecognized token; on any other topic a warning is logged
and the message discarded. -/
def cbMqtt_iot (env : MqttEnv) (st : ScriptState) (m : MQTTMessage) :
    Except PyError (ScriptState × List LogEvent) :=
  match m.payload with
  | none => Except.ok (st, [(mqtt_message_log m).2])
  | some command =>
    let lg := (mqtt_message_log m).2
    if m.topic = env.topicName "iot_command_control" then
      let dbg : LogEvent :=
        { level := LogLevel.debug,
          text := "Received IoT command " ++ command ++ " from topic "
            ++ m.topic }
      match map_command command with
      | none => Except.error PyError.keyError
      | some a =>
        let res := action_iot st a
        Except.ok (res.1, lg :: dbg :: res.2)
    else
      Except.ok (st,
        [lg,
         { level := LogLevel.warning,
           text := "Received unknown command " ++ command ++ " from topic "
             ++ m.topic }])

/-- `cbMqtt_system` (lines 377-405): system-data handler.  The first parse
is guarded (`except ValueError: value = None`) and its result — possibly
`None` — is stored for the value topic; the percentage branch re-parses the
payload unguarded (line 403), so an unparseable payload raises there. -/
def cbMqtt_system (env : MqttEnv) (d : IotData) (m : MQTTMessage) :
    Except PyError (IotData × List LogEvent) :=
  match m.payload with
  | none => Except.ok (d, [(mqtt_message_log m).2])
  | some p =>
    let lg := (mqtt_message_log m).2
    let value : Option ℚ := pyFloat p
    if m.topic = env.topicName "system_temp_value" then
      Except.ok ({ d with temperatureValue := value },
        [lg, { level := LogLevel.debug,
               text := "Received system temperature value" }])
    else if m.topic = env.topicName "system_temp_percentage" then
      match pyFloat p with
      | none => Except.error PyError.valueError
      | some v =>
        Except.ok ({ d with temperaturePercentage := some v },
          [lg, { level := LogLevel.debug,
                 text := "Received system temperature percentage" }])
    else
      Except.ok (d, [lg])

/-- `cbMqtt_fan` (lines 408-454): cooling-fan handler.  Every branch taken
with a present payload evaluates a name that is never assigned (`status` in
the status, control and fallback branches; `value` in the parameter
branches), so the handler raises `NameError` whenever the payload is
present; no state is ever updated. -/
def cbMqtt_fan (env : MqttEnv) (m : MQTTMessage) :
    Except PyError (List LogEvent) :=
  match m.payload with
  | none => Except.ok [(mqtt_message_log m).2]
  | some _ =>
    if m.topic = env.topicNameDefault "mqtt_topic_fan_status" then
      Except.error (PyError.nameError "status")
    else if m.topic = env.topicName "fan_status_control" then
      Except.error (PyError.nameError "status")
    else if m.topic = env.topicName "fan_status_percon" then
      Except.error (PyError.nameError "value")
    else if m.topic = env.topicName "fan_status_percoff" then
      Except.error (PyError.nameError "value")
    else if m.topic = env.topicName "fan_status_tempon" then
      Except.error (PyError.nameError "value")
    else if m.topic = env.topicName "fan_status_tempoff" then
      Except.error (PyError.nameError "value")
    else if m.topic = env.topicName "fan_status_tempmax" then
      Except.error (PyError.nameError "value")
    else
      Except.error (PyError.nameError "status")

/-- Observable side effects of the connection lifecycle and of shutdown:
timer-group stop, will registration, connect attempt, presence publishes,
transport close, subscription setup, and dispatch of subscribed data. -/
inductive SysEvent
  | stopTimers
  | registerWill (payload : String) (topicKey : String)
  | connectBroker
  | publishOffline
  | closeTransport
  | subscribeFilters
  | publishOnline
  | dataProcessed (topic : String)
  | logged (level : LogLevel)
  deriving DecidableEq, Repr

/-- `setup_mqtt` (lines 546-566): builds the client, registers the last will
with `mqtt.lwt(IoT.OFFLINE, IoT.LWT, mqtt.GROUP_TOPICS)` and connects.
Class `IoT` defines no attribute `OFFLINE` (only `LWT`), so evaluating
`IoT.OFFLINE` raises `AttributeError` before anything is registered; the
surrounding `try` covers only `mqtt.connect`, not the `mqtt.lwt` call. -/
def setup_mqtt : Except PyError (List SysEvent) :=
  match IoT.attr "OFFLINE" with
  | none => Except.error (PyError.attributeError "OFFLINE")
  | some off =>
    match IoT.attr "LWT" with
    | none => Except.error (PyError.attributeError "LWT")
    | some key =>
      Except.ok [SysEvent.registerWill off key, SysEvent.connectBroker]

/-- Modelled from the spec: `gbj_pythonlib_sw.mqtt.MqttBroker.disconnect` is
library code not under src/.  Per §4.1 the graceful disconnect first
publishes the "Offline" presence message if currently Connected, then closes
the transport. -/
def mqtt_disconnect (connected : Bool) : List SysEvent :=
  if connected then [SysEvent.publishOffline, SysEvent.closeTransport]
  else [SysEvent.closeTransport]

/-- `action_exit` (lines 123-126): stop all registered timers, then
disconnect the transport. -/
def action_exit (connected : Bool) : List SysEvent :=
  SysEvent.stopTimers :: mqtt_disconnect connected

/-- Connection session state: whether the transport currently reports
connected (`mqtt.get_connected()`). -/
structure Session where
  connected : Bool
  deriving DecidableEq, Repr

/-- `mqtt_publish_iot_lwt_online` (lines 158-177): publish the "Online"
presence message to the LWT topic, a no-op when not connected. -/
def mqtt_publish_iot_lwt_online (connected : Bool) : List SysEvent :=
  if connected then [SysEvent.publishOnline] else []

/-- `cbMqtt_on_connect` (lines 249-275): on result code 0, set up and
subscribe the topic filters (`setup_mqtt_filters`), then publish the online
presence message; on any other code, log an error. -/
def cbMqtt_on_connect (s : Session) (rc : Int) : List SysEvent :=
  if rc = 0 then
    SysEvent.subscribeFilters :: mqtt_publish_iot_lwt_online s.connected
  else
    [SysEvent.logged LogLevel.error]

/-- Inputs delivered serially to the client by the transport: connection
results and inbound subscribed messages (spec §5: one coordination point
serializes all callbacks). -/
inductive InEvent
  | connectResult (rc : Int)
  | inbound (m : MQTTMessage)
  deriving DecidableEq, Repr

/-- One serialized callback step.  On a successful connect result the
transport has transitioned the session to Connected before the callback
runs (modelled from the spec, §4.1); an inbound message is routed to its
handler, summarized as a `dataProcessed` effect. -/
def stepEvent (s : Session) : InEvent → Session × List SysEvent
  | InEvent.connectResult rc =>
    if rc = 0 then
      let s2 : Session := { connected := true }
      (s2, cbMqtt_on_connect s2 rc)
    else
      (s, cbMqtt_on_connect s rc)
  | InEvent.inbound m => (s, [SysEvent.dataProcessed m.topic])

/-- Run a serialized input trace, concatenating the emitted effects. -/
def runEvents (s : Session) : List InEvent → List SysEvent
  | [] => []
  | e :: rest =>
    let step := stepEvent s e
    step.2 ++ runEvents step.1 rest

/-- Modelled from the spec: the Device State Store derived-percentage getter
(§4.5) is absent from src/iotserver.py, which only stores a percentage it
receives over MQTT; per the spec, `percentage = clamp(current / ceiling *
100, 0, 100)` when the ceiling is known and positive, else null. -/
def getPercentage (current ceiling : Option ℚ) : Option ℚ :=
  match current, ceiling with
  | some t, some c =>
    if 0 < c then some (max 0 (min (t / c * 100) 100)) else none
  | _, _ => none

/-! Concrete inputs used to evaluate the handlers. -/

/-- A device store holding a previous temperature reading of 25. -/
def d25 : IotData :=
  { temperatureValue := some 25, temperaturePercentage := none }

/-- A value-topic message whose payload does not parse as a float. -/
def mBadValue : MQTTMessage :=
  { topic := "system_temp_value", payload := some "abc", qos := 0,
    retain := false }

/-- A percentage-topic message whose payload does not parse as a float. -/
def mBadPercentage : MQTTMessage :=
  { topic := "system_temp_percentage", payload := some "abc", qos := 0,
    retain := false }

/-- A command-topic message carrying an unrecognized token. -/
def mUnknownCmd : MQTTMessage :=
  { topic := "iot_command_control", payload := some "FOO", qos := 0,
    retain := false }

/-- A fan parameter-topic message with a present payload. -/
def mFanPercOn : MQTTMessage :=
  { topic := "fan_status_percon", payload := some "50", qos := 0,
    retain := false }

/-- A message with an absent payload. -/
def mEmpty : MQTTMessage :=
  { topic := "some_topic", payload := none, qos := 0, retain := false }

/-- A subscribed data message with a present payload. -/
def mData : MQTTMessage :=
  { topic := "system_temp_value", payload := some "42", qos := 0,
    retain := false }

/-! Theorems for the claims. -/

/-- C1 counterexample: on the system temperature value topic, a payload that
fails to parse as a float does NOT leave the stored reading unchanged — the
handler overwrites it with `None`.  Starting from a store holding 25, after
handling the unparseable message the stored value is `none`, while before it
was `some 25 ≠ none`. -/
theorem C1_counterexample :
    (cbMqtt_system idEnv d25 mBadValue).map (fun r => r.1.temperatureValue)
        = Except.ok none ∧
    d25.temperatureValue ≠ none := by
  exact ⟨rfl, by simp [d25]⟩

/-- C1 (amended): for every inbound message on the system temperature value
topic whose payload is present but fails to parse as a float, `cbMqtt_system`
returns normally and sets `iot_data['system']['temperature']['value']` to
`None` — the previous value is overwritten with null, not retained. -/
theorem C1_parse_failure_clears_value (env : MqttEnv) (d : IotData)
    (m : MQTTMessage) (p : String)
    (hp : m.payload = some p) (hf : pyFloat p = none)
    (ht : m.topic = env.topicName "system_temp_value") :
    cbMqtt_system env d m
      = Except.ok ({ d with temperatureValue := none },
          [(mqtt_message_log m).2,
           { level := LogLevel.debug,
             text := "Received system temperature value" }]) := by
  simp [cbMqtt_system, hp, ht, hf]

/-- C1 witness: the amended statement evaluated at the concrete store `d25`
and the concrete unparseable value-topic message. -/
theorem C1_parse_failure_clears_value_witness :
    cbMqtt_system idEnv d25 mBadValue
      = Except.ok ({ d25 with temperatureValue := none },
          [(mqtt_message_log mBadValue).2,
           { level := LogLevel.debug,
             text := "Received system temperature value" }]) :=
  C1_parse_failure_clears_value idEnv d25 mBadValue "abc" rfl rfl rfl

/-- C2: on the command topic, an unrecognized token does not produce a
warning — the dictionary subscript `map_command[command]` raises `KeyError`,
so `cbMqtt_iot` raises instead of discarding the message.  (The warning
branch of the code fires on an unexpected topic, not an unexpected token.) -/
theorem C2_unknown_token_raises_keyerror :
    map_command "FOO" = none ∧
    cbMqtt_iot idEnv Script.initial mUnknownCmd
      = Except.error PyError.keyError :=
  ⟨rfl, rfl⟩

/-- C3: `setup_mqtt` does not register the "Offline" will payload — it
evaluates `IoT.OFFLINE`, an attribute class `IoT` never defines, so the
`mqtt.lwt` call raises `AttributeError` before any registration or
connection attempt (the `try` block covers only `mqtt.connect`). -/
theorem C3_setup_mqtt_attribute_error :
    IoT.attr "OFFLINE" = none ∧
    setup_mqtt = Except.error (PyError.attributeError "OFFLINE") :=
  ⟨rfl, rfl⟩

/-- C4: the shutdown sequence run by `action_exit` stops all periodic timers
first, then — when connected — publishes the offline presence message before
closing the transport; when not connected, no offline publish happens and
the transport is closed after the timers are stopped. -/
theorem C4_shutdown_order :
    SysEvent.publishOffline ∈ action_exit true ∧
    SysEvent.closeTransport ∈ action_exit true ∧
    List.indexOf SysEvent.stopTimers (action_exit true)
        < List.indexOf SysEvent.publishOffline (action_exit true) ∧
    List.indexOf SysEvent.publishOffline (action_exit true)
        < List.indexOf SysEvent.closeTransport (action_exit true) ∧
    SysEvent.publishOffline ∉ action_exit false ∧
    List.indexOf SysEvent.stopTimers (action_exit false)
        < List.indexOf SysEvent.closeTransport (action_exit false) := by
  refine ⟨?_, ?_, ?_, ?_, ?_, ?_⟩ <;> decide

/-- C5: executing the EXIT command action: in service mode, the script state
is unchanged and only a warning is logged; otherwise the run flag is cleared
so the main loop terminates. -/
theorem C5_exit_action (st : ScriptState) :
    (st.service = true →
      action_iot st Action.SCRIPT_EXIT
        = (st, [{ level := LogLevel.warning,
                  text := "Exiting the script in service mode is prohibited" }])) ∧
    (st.service = false →
      action_iot st Action.SCRIPT_EXIT
        = ({ st with running := false },
           [{ level := LogLevel.warning, text := "Stop script" }])) := by
  constructor <;> intro h <;> simp [action_iot, h]

/-- C5 witness: both branches evaluated at concrete script states. -/
theorem C5_exit_action_witness :
    action_iot { running := true, service := true } Action.SCRIPT_EXIT
        = ({ running := true, service := true },
           [{ level := LogLevel.warning,
              text := "Exiting the script in service mode is prohibited" }]) ∧
    action_iot { running := true, service := false } Action.SCRIPT_EXIT
        = ({ running := false, service := false },
           [{ level := LogLevel.warning, text := "Stop script" }]) :=
  ⟨(C5_exit_action { running := true, service := true }).1 rfl,
   (C5_exit_action { running := true, service := false }).2 rfl⟩

/-- C6: every handler short-circuits on an absent payload: it returns right
after the debug log of `mqtt_message_log`, leaving the device store and the
script state untouched and raising nothing. -/
theorem C6_absent_payload_noop (env : MqttEnv) (st : ScriptState)
    (d : IotData) (m : MQTTMessage) (h : m.payload = none) :
    cbMqtt_iot env st m = Except.ok (st, [(mqtt_message_log m).2]) ∧
    cbMqtt_system env d m = Except.ok (d, [(mqtt_message_log m).2]) ∧
    cbMqtt_fan env m = Except.ok [(mqtt_message_log m).2] ∧
    cbMqtt_on_message m = [(mqtt_message_log m).2] := by
  refine ⟨?_, ?_, ?_, rfl⟩ <;>
    simp [cbMqtt_iot, cbMqtt_system, cbMqtt_fan, h]

/-- C6 witness: the four handlers evaluated on a concrete message with
absent payload, from the initial states. -/
theorem C6_absent_payload_noop_witness :
    cbMqtt_iot idEnv Script.initial mEmpty
        = Except.ok (Script.initial, [(mqtt_message_log mEmpty).2]) ∧
    cbMqtt_system idEnv iot_data_initial mEmpty
        = Except.ok (iot_data_initial, [(mqtt_message_log mEmpty).2]) ∧
    cbMqtt_fan idEnv mEmpty = Except.ok [(mqtt_message_log mEmpty).2] ∧
    cbMqtt_on_message mEmpty = [(mqtt_message_log mEmpty).2] :=
  C6_absent_payload_noop idEnv Script.initial iot_data_initial mEmpty rfl

/-- C7: `cbMqtt_system` does not return without raising on every recognized
topic: on the temperature percentage topic it re-parses the payload with an
unguarded `float(message.payload)` (line 403), so an unparseable payload
raises `ValueError` out of the handler. -/
theorem C7_percentage_parse_raises :
    cbMqtt_system idEnv iot_data_initial mBadPercentage
      = Except.error PyError.valueError :=
  rfl

/-- Every effect emitted while processing a trace of inbound messages only
is a data-processing effect. -/
lemma runEvents_all_inbound (s : Session) (evs : List InEvent)
    (h : ∀ e ∈ evs, ∃ m, e = InEvent.inbound m) :
    ∀ a ∈ runEvents s evs, ∃ t, a = SysEvent.dataProcessed t := by
  induction evs generalizing s with
  | nil => intro a ha; simp [runEvents] at ha
  | cons e rest ih =>
    intro a ha
    obtain ⟨m, rfl⟩ := h e (List.mem_cons_self e rest)
    simp only [runEvents, stepEvent, List.cons_append, List.nil_append,
      List.mem_cons] at ha
    rcases ha with rfl | ha
    · exact ⟨m.topic, rfl⟩
    · exact ih s (fun x hx => h x (List.mem_cons_of_mem _ hx)) a ha

/-- C8: in a serialized trace beginning with a successful connection result
followed by inbound subscribed messages, the emitted effects contain exactly
one Online presence publish, and no subscription-triggered data processing
occurs before it. -/
theorem C8_connect_publishes_online_once_first (s : Session)
    (evs : List InEvent) (h : ∀ e ∈ evs, ∃ m, e = InEvent.inbound m) :
    ∃ pre post,
      runEvents s (InEvent.connectResult 0 :: evs)
          = pre ++ SysEvent.publishOnline :: post ∧
      SysEvent.publishOnline ∉ pre ∧
      SysEvent.publishOnline ∉ post ∧
      ∀ t, SysEvent.dataProcessed t ∉ pre := by
  refine ⟨[SysEvent.subscribeFilters], runEvents { connected := true } evs,
    ?_, ?_, ?_, ?_⟩
  · simp [runEvents, stepEvent, cbMqtt_on_connect,
      mqtt_publish_iot_lwt_online]
  · simp
  · intro hmem
    obtain ⟨t, ht⟩ := runEvents_all_inbound { connected := true } evs h _ hmem
    cases ht
  · intro t
    simp

/-- C8 witness: the trace of one successful connect result followed by one
inbound data message. -/
theorem C8_connect_publishes_online_once_first_witness :
    ∃ pre post,
      runEvents { connected := false }
          [InEvent.connectResult 0, InEvent.inbound mData]
          = pre ++ SysEvent.publishOnline :: post ∧
      SysEvent.publishOnline ∉ pre ∧
      SysEvent.publishOnline ∉ post ∧
      ∀ t, SysEvent.dataProcessed t ∉ pre :=
  C8_connect_publishes_online_once_first { connected := false }
    [InEvent.inbound mData] (fun e he => ⟨mData, by simpa using he⟩)

/-- C9: the fan handler does not complete without raising: on a fan
parameter topic with a present payload it evaluates the never-assigned name
`value` (copy/paste defect), raising `NameError`; no branch updates any
state. -/
theorem C9_fan_handler_raises_nameerror :
    cbMqtt_fan idEnv mFanPercOn = Except.error (PyError.nameError "value") :=
  rfl

/-- C10: the derived percentage equals `clamp(current / ceiling * 100, 0,
100)` whenever the ceiling is known and positive; it is null when the
ceiling is zero or unset (or the current reading is unset); and any produced
value lies in [0, 100] — no division by zero, exception or infinity. -/
theorem C10_percentage_derivation (t c : ℚ) :
    (0 < c →
      getPercentage (some t) (some c)
        = some (max 0 (min (t / c * 100) 100))) ∧
    getPercentage (some t) (some 0) = none ∧
    getPercentage (some t) none = none ∧
    getPercentage none (some c) = none ∧
    ∀ p, getPercentage (some t) (some c) = some p → 0 ≤ p ∧ p ≤ 100 := by
  refine ⟨fun hc => by simp [getPercentage, hc],
    by simp [getPercentage], rfl, rfl, ?_⟩
  intro p hp
  simp only [getPercentage] at hp
  by_cases hc : 0 < c
  · rw [if_pos hc] at hp
    obtain rfl : max 0 (min (t / c * 100) 100) = p := Option.some.inj hp
    exact ⟨le_max_left 0 _, max_le (by norm_num) (min_le_right _ _)⟩
  · rw [if_neg hc] at hp
    cases hp

/-- C10 witness: the spec's example, current = 25 and ceiling = 100, gives
percentage 25, which lies within [0, 100]. -/
theorem C10_percentage_derivation_witness :
    getPercentage (some 25) (some 100) = some 25 ∧
    (0 : ℚ) ≤ 25 ∧ (25 : ℚ) ≤ 100 := by
  have h := C10_percentage_derivation (25 : ℚ) (100 : ℚ)
  have h1 := h.1 (by norm_num)
  have hv : getPercentage (some (25 : ℚ)) (some 100) = some 25 := by
    rw [h1]
    norm_num [min_def, max_def]
  exact ⟨hv, (h.2.2.2.2 25 hv).1, (h.2.2.2.2 25 hv).2⟩

end IotServer
